import Mathlib

/-!
Verification development for the identa-cli secret/credential resolution core.

JavaScript strings are modelled as Lean `String`; JavaScript `undefined`
for an optional string value is modelled as `none : Option String`.
JavaScript truthiness on an optional string (`if (v)`) is `jsTruthy`:
`undefined` and the empty string are falsy, every other string is truthy.
External stores (the persisted config file, the secret backend, the
filesystem) are modelled as explicit function-valued states passed to the
embedded operations; interactive prompts are modelled as oracle arguments
holding the answer the user would give (`none` = cancelled / undefined).
-/

namespace IdentaCli

/-- Truthiness of an optional JS string: `undefined` and `""` are falsy. -/
def jsTruthy : Option String → Bool
  | none => false
  | some s => if s = "" then false else true

/-- Embeds `str.replace(/\/$/, '')`: remove one trailing `/` if present. -/
def stripOneTrailingSlash (s : String) : String :=
  if s.data.getLast? = some '/' then String.mk s.data.dropLast else s

/-- Modelled from the spec: the persisted configuration store.  The module
`src/lib/config.js` that `api-url.js` imports is not under `src/`; §6 of the
spec describes it as "a simple mapping of string keys to string values
persisted across invocations", read with `get(key)`/`has(key)`, written with
`set(key, value)`.  We model it as a partial map from keys to values. -/
def ConfigStore := String → Option String

/-- Modelled from the spec: `config.set(key, value)` on the persisted
configuration store replaces/creates the entry for `key`. -/
def configSet (cfg : ConfigStore) (key value : String) : ConfigStore :=
  fun k => if k = key then some value else cfg k

/-- The empty configuration store (no persisted keys). -/
def emptyConfig : ConfigStore := fun _ => none

/-- The fixed production default from `src/lib/api-url.js`. -/
def PRODUCTION_URL : String := "https://www.ident.agency"

/-- The source-selection part of `resolveApiBaseUrl` (src/lib/api-url.js,
lines 19–31): flag if truthy, else the persisted `apiBaseUrl` config value if
present, else the production default. -/
def chooseApiBaseUrl (cfg : ConfigStore) (flagValue : Option String) : String :=
  if jsTruthy flagValue then flagValue.getD ""
  else
    match cfg "apiBaseUrl" with
    | some v => v
    | none => PRODUCTION_URL

/-- Embeds `resolveApiBaseUrl(flagValue, debug)` (src/lib/api-url.js):
choose by precedence, then strip a single trailing slash.  The `debug`
argument only controls console logging in the source and does not affect
the returned value. -/
def resolveApiBaseUrl (cfg : ConfigStore) (flagValue : Option String)
    (debug : Bool) : String :=
  stripOneTrailingSlash (chooseApiBaseUrl cfg flagValue)

/-- Embeds `setApiBaseUrl(url)` (src/lib/api-url.js): strip one trailing
slash, then persist under the `apiBaseUrl` config key. -/
def setApiBaseUrl (cfg : ConfigStore) (url : String) : ConfigStore :=
  configSet cfg "apiBaseUrl" (stripOneTrailingSlash url)

theorem jsTruthy_some_iff (s : String) : jsTruthy (some s) = true ↔ s ≠ "" := by
  simp [jsTruthy]

theorem stripOneTrailingSlash_concat_slash (l : List Char) :
    stripOneTrailingSlash (String.mk (l ++ ['/'])) = String.mk l := by
  simp [stripOneTrailingSlash, List.getLast?_concat, List.dropLast_concat]

theorem stripOneTrailingSlash_no_slash (s : String)
    (h : s.data.getLast? ≠ some '/') : stripOneTrailingSlash s = s := by
  simp [stripOneTrailingSlash, h]

/-- C2: `resolveApiBaseUrl` resolves strictly by precedence: a present
non-empty flag value wins; otherwise the persisted `apiBaseUrl` config value
if present; otherwise the fixed production default.  With no flag and no
persisted value it returns the literal production default, and with persisted
`apiBaseUrl = "http://localhost:5173"` it returns that value.  It always
returns a string (it is a total function). -/
theorem resolveApiBaseUrl_precedence :
    ∀ (cfg : ConfigStore) (debug : Bool),
      (∀ s : String, s ≠ "" →
        resolveApiBaseUrl cfg (some s) debug = stripOneTrailingSlash s)
      ∧ (∀ flagValue : Option String, jsTruthy flagValue = false →
          ∀ v : String, cfg "apiBaseUrl" = some v →
            resolveApiBaseUrl cfg flagValue debug = stripOneTrailingSlash v)
      ∧ (∀ flagValue : Option String, jsTruthy flagValue = false →
          cfg "apiBaseUrl" = none →
            resolveApiBaseUrl cfg flagValue debug = PRODUCTION_URL)
      ∧ resolveApiBaseUrl emptyConfig none false = "https://www.ident.agency"
      ∧ resolveApiBaseUrl (configSet emptyConfig "apiBaseUrl" "http://localhost:5173")
          none false = "http://localhost:5173" := by
  intro cfg debug
  refine ⟨?_, ?_, ?_, ?_, ?_⟩
  · intro s hs
    have ht : jsTruthy (some s) = true := (jsTruthy_some_iff s).mpr hs
    simp [resolveApiBaseUrl, chooseApiBaseUrl, ht]
  · intro flagValue hf v hv
    simp [resolveApiBaseUrl, chooseApiBaseUrl, hf, hv]
  · intro flagValue hf hv
    have : stripOneTrailingSlash PRODUCTION_URL = PRODUCTION_URL := by decide
    simp [resolveApiBaseUrl, chooseApiBaseUrl, hf, hv, this]
  · decide
  · decide

/-- Witness for C2 at concrete inputs: a non-empty flag wins over a persisted
config value, and stripping leaves a slash-free value unchanged. -/
theorem resolveApiBaseUrl_precedence_witness :
    resolveApiBaseUrl (configSet emptyConfig "apiBaseUrl" "http://other") (some "http://flagged")
      false = stripOneTrailingSlash "http://flagged" :=
  (resolveApiBaseUrl_precedence (configSet emptyConfig "apiBaseUrl" "http://other") false).1
    "http://flagged" (by decide)

/-- C3: whatever its source, the chosen value loses exactly one trailing
slash and no more: `resolveApiBaseUrl("https://example.com/", false)` is
`"https://example.com"` regardless of the persisted config; a flag value
ending in one `/` loses it; a flag or config value ending in `//` keeps
exactly one trailing slash. -/
theorem resolveApiBaseUrl_strips_one_slash :
    ∀ (cfg : ConfigStore) (debug : Bool),
      resolveApiBaseUrl cfg (some "https://example.com/") debug = "https://example.com"
      ∧ (∀ l : List Char,
          resolveApiBaseUrl cfg (some (String.mk (l ++ ['/']))) debug = String.mk l)
      ∧ (∀ l : List Char,
          resolveApiBaseUrl cfg (some (String.mk (l ++ ['/', '/']))) debug
            = String.mk (l ++ ['/']))
      ∧ (∀ l : List Char,
          resolveApiBaseUrl (configSet cfg "apiBaseUrl" (String.mk (l ++ ['/', '/'])))
            none debug = String.mk (l ++ ['/'])) := by
  intro cfg debug
  have hone : ∀ l : List Char,
      resolveApiBaseUrl cfg (some (String.mk (l ++ ['/']))) debug = String.mk l := by
    intro l
    have hne : String.mk (l ++ ['/']) ≠ "" := by
      intro h
      have : l ++ ['/'] = ([] : List Char) := congrArg String.data h
      simp at this
    have ht : jsTruthy (some (String.mk (l ++ ['/']))) = true :=
      (jsTruthy_some_iff _).mpr hne
    simp [resolveApiBaseUrl, chooseApiBaseUrl, ht,
      stripOneTrailingSlash_concat_slash]
  refine ⟨?_, hone, ?_, ?_⟩
  · have h := hone ("https://example.com".data)
    simpa using h
  · intro l
    have h := hone (l ++ ['/'])
    simpa [List.append_assoc] using h
  · intro l
    simp [resolveApiBaseUrl, chooseApiBaseUrl, jsTruthy, configSet]
    have h : stripOneTrailingSlash (String.mk ((l ++ ['/']) ++ ['/']))
        = String.mk (l ++ ['/']) := stripOneTrailingSlash_concat_slash (l ++ ['/'])
    simpa [List.append_assoc] using h

/-- C10: persisting a URL with `setApiBaseUrl` and then resolving with no
flag strips one trailing slash at store time and one more at resolve time:
the composition returns the url with up to two trailing slashes removed; a
url ending in exactly `//` is stored with one trailing slash and resolved
with none. -/
theorem setThenResolve_strips_two_slashes :
    ∀ (cfg : ConfigStore) (url : String),
      resolveApiBaseUrl (setApiBaseUrl cfg url) none false
        = stripOneTrailingSlash (stripOneTrailingSlash url)
      ∧ (∀ l : List Char,
          resolveApiBaseUrl (setApiBaseUrl cfg (String.mk (l ++ ['/', '/']))) none false
            = String.mk l)
      ∧ setApiBaseUrl cfg "http://x//" "apiBaseUrl" = some "http://x/"
      ∧ resolveApiBaseUrl (setApiBaseUrl cfg "http://x//") none false = "http://x" := by
  intro cfg url
  have hmain : ∀ u : String,
      resolveApiBaseUrl (setApiBaseUrl cfg u) none false
        = stripOneTrailingSlash (stripOneTrailingSlash u) := by
    intro u
    simp [resolveApiBaseUrl, chooseApiBaseUrl, setApiBaseUrl, configSet, jsTruthy]
  refine ⟨hmain url, ?_, ?_, ?_⟩
  · intro l
    have h := hmain (String.mk (l ++ ['/', '/']))
    rw [h]
    have h2 : stripOneTrailingSlash (String.mk ((l ++ ['/']) ++ ['/']))
        = String.mk (l ++ ['/']) := stripOneTrailingSlash_concat_slash (l ++ ['/'])
    rw [show l ++ ['/', '/'] = (l ++ ['/']) ++ ['/'] by simp [List.append_assoc]]
    rw [h2, stripOneTrailingSlash_concat_slash]
  · simp [setApiBaseUrl, configSet]
    decide
  · rw [hmain "http://x//"]
    decide

/-- Modelled from the spec: the secret backend behind `getSecretProvider`
(`src/lib/secrets.js` is not under `src/`).  §4.2 of the spec describes it as
a capability set `{get(service, key), set(service, key, value),
delete(service, key)}` over entries uniquely identified by `(service, key)`:
`get` returns the stored string or an explicit not-found signal, `set`
creates-or-replaces, `delete` removes (no-op when absent).  We model the
store as a partial map from `(service, key)` to string values; `get` is
function application. -/
def SecretBackend := String → String → Option String

/-- Modelled from the spec: `set(service, key, value)` on the secret backend
creates-or-replaces the entry for `(service, key)`. -/
def backendSet (b : SecretBackend) (service key value : String) : SecretBackend :=
  fun s k => if s = service ∧ k = key then some value else b s k

/-- Modelled from the spec: `delete(service, key)` on the secret backend
removes the entry for `(service, key)` if present. -/
def backendDelete (b : SecretBackend) (service key : String) : SecretBackend :=
  fun s k => if s = service ∧ k = key then none else b s k

/-- The empty secret backend. -/
def emptyBackend : SecretBackend := fun _ _ => none

/-- A backend holding exactly one entry, under the CLI's service namespace. -/
def storeOnly (key value : String) : SecretBackend :=
  fun s k => if s = "ident-agency-cli" ∧ k = key then some value else none

/-- The fixed service namespace used throughout the CLI sources. -/
def cliService : String := "ident-agency-cli"

/-- `get` of the provider built by `createDeviceKeyStorageProvider`
(src/lib/device-key-storage.js): forwards to the secret backend under the
fixed `'ident-agency-cli'` service. -/
def deviceKeyStorageGet (b : SecretBackend) (key : String) : Option String :=
  b cliService key

/-- `set` of the provider built by `createDeviceKeyStorageProvider`. -/
def deviceKeyStorageSet (b : SecretBackend) (key value : String) : SecretBackend :=
  backendSet b cliService key value

/-- `delete` of the provider built by `createDeviceKeyStorageProvider`
(the source guards on `secrets.delete` being present; in the modelled
backend it always is). -/
def deviceKeyStorageDelete (b : SecretBackend) (key : String) : SecretBackend :=
  backendDelete b cliService key

/-- Byte-wise prefix test on character lists (structural helper). -/
def isPre : List Char → List Char → Bool
  | [], _ => true
  | _ :: _, [] => false
  | a :: as, b :: bs => a == b && isPre as bs

/-- Embeds JS `s.startsWith(pat)` for plain (non-regex) patterns. -/
def startsWithLit (pat s : String) : Bool := isPre pat.data s.data

/-- Embeds JS `String.prototype.split` with a single-character separator:
`"a:b:c".split(':') = ["a","b","c"]`, `"device:".split(':') = ["device",""]`,
`"x".split(':') = ["x"]`. -/
def splitOnChar (sep : Char) : List Char → List (List Char)
  | [] => [[]]
  | c :: rest =>
    if c = sep then [] :: splitOnChar sep rest
    else
      match splitOnChar sep rest with
      | [] => [[c]]
      | h :: t => (c :: h) :: t

/-- String-level wrapper for `splitOnChar`. -/
def jsSplit (sep : Char) (s : String) : List String :=
  (splitOnChar sep s.data).map String.mk

/-- Value of a base64 alphabet character, `none` for non-alphabet input
(Node's decoder skips non-alphabet characters, including padding). -/
def b64Val (c : Char) : Option Nat :=
  if 'A' ≤ c ∧ c ≤ 'Z' then some (c.toNat - 'A'.toNat)
  else if 'a' ≤ c ∧ c ≤ 'z' then some (c.toNat - 'a'.toNat + 26)
  else if '0' ≤ c ∧ c ≤ '9' then some (c.toNat - '0'.toNat + 52)
  else if c = '+' then some 62
  else if c = '/' then some 63
  else none

/-- Decode a list of 6-bit base64 values into bytes, 4 values per 3 bytes,
with Node's handling of a trailing partial group (3 values → 2 bytes,
2 values → 1 byte, a lone value is dropped). -/
def b64Groups : List Nat → List Nat
  | a :: b :: c :: d :: rest =>
      (a * 4 + b / 16) :: ((b % 16) * 16 + c / 4) :: ((c % 4) * 64 + d) :: b64Groups rest
  | [a, b, c] => [a * 4 + b / 16, (b % 16) * 16 + c / 4]
  | [a, b] => [a * 4 + b / 16]
  | _ => []

/-- Embeds `Buffer.from(s, 'base64')`: raw bytes of the decoded string. -/
def base64decode (s : String) : List Nat :=
  b64Groups (s.data.filterMap b64Val)

instance instDecEqExcept {ε α : Type _} [DecidableEq ε] [DecidableEq α] :
    DecidableEq (Except ε α) := fun a b =>
  match a, b with
  | Except.ok x, Except.ok y =>
      if h : x = y then isTrue (by rw [h]) else isFalse (fun hc => h (Except.ok.inj hc))
  | Except.error x, Except.error y =>
      if h : x = y then isTrue (by rw [h]) else isFalse (fun hc => h (Except.error.inj hc))
  | Except.ok _, Except.error _ => isFalse (fun hc => Except.noConfusion hc)
  | Except.error _, Except.ok _ => isFalse (fun hc => Except.noConfusion hc)

/-- The lookup phase of `createDeviceKeyProvider` in src/src/actions/auth.js
(lines 15–28): read `'device-key-' + keyIdOrDeviceId`; when that yields no
truthy value and the identifier starts with `'device:'`, re-read
`'device-key-' + parts[1]` where `parts = keyIdOrDeviceId.split(':')`
(guarded by `parts.length >= 2`). -/
def authLookup (secrets : SecretBackend) (keyIdOrDeviceId : String) : Option String :=
  let key := "device-key-" ++ keyIdOrDeviceId
  let deviceKeyB64 := secrets cliService key
  if (!jsTruthy deviceKeyB64) && startsWithLit "device:" keyIdOrDeviceId then
    let parts := jsSplit ':' keyIdOrDeviceId
    if 2 ≤ parts.length then
      secrets cliService ("device-key-" ++ parts.getD 1 "")
    else deviceKeyB64
  else deviceKeyB64

/-- Embeds the device key provider of src/src/actions/auth.js (lines 10–37):
after the (possibly two-step) lookup, throw the not-found error when the
result is falsy, else return the base64-decoded bytes. -/
def authDeviceKeyProvider (secrets : SecretBackend) (keyIdOrDeviceId : String) :
    Except String (List Nat) :=
  let deviceKeyB64 := authLookup secrets keyIdOrDeviceId
  if jsTruthy deviceKeyB64 then
    Except.ok (base64decode (deviceKeyB64.getD ""))
  else
    Except.error ("Device key not found for: " ++ keyIdOrDeviceId)

/-- Embeds the device key provider of src/src/actions/keys.js (lines
872–885): a single lookup under `'device-key-' + deviceId`, with no legacy
fallback. -/
def keysDeviceKeyProvider (secrets : SecretBackend) (deviceId : String) :
    Except String (List Nat) :=
  let key := "device-key-" ++ deviceId
  let deviceKeyB64 := secrets cliService key
  if jsTruthy deviceKeyB64 then
    Except.ok (base64decode (deviceKeyB64.getD ""))
  else
    Except.error ("Device key not found for device ID: " ++ deviceId)

/-- C8: the secret resolution layer obeys the key-value store laws, both at
the backend level for every `(service, key, value)` and through the
`createDeviceKeyStorageProvider` wrapper: get after set returns exactly the
stored value; get after set-then-delete reports not found (`none`, an
explicit signal, not an error); deleting an absent entry leaves the store
pointwise unchanged (a no-op, not an error). -/
theorem secretStorage_kv_laws :
    ∀ (b : SecretBackend) (service key value : String),
      backendSet b service key value service key = some value
      ∧ backendDelete (backendSet b service key value) service key service key = none
      ∧ (b service key = none → ∀ s k, backendDelete b service key s k = b s k)
      ∧ deviceKeyStorageGet (deviceKeyStorageSet b key value) key = some value
      ∧ deviceKeyStorageGet (deviceKeyStorageDelete (deviceKeyStorageSet b key value) key) key
          = none
      ∧ (deviceKeyStorageGet b key = none →
          ∀ s k, deviceKeyStorageDelete b key s k = b s k) := by
  intro b service key value
  have hdel : ∀ (b' : SecretBackend) (sv ky : String), b' sv ky = none →
      ∀ s k, backendDelete b' sv ky s k = b' s k := by
    intro b' sv ky h s k
    by_cases hc : s = sv ∧ k = ky
    · obtain ⟨h1, h2⟩ := hc
      subst h1; subst h2
      simp [backendDelete, h]
    · simp [backendDelete, hc]
  refine ⟨?_, ?_, hdel b service key, ?_, ?_, ?_⟩
  · simp [backendSet]
  · simp [backendDelete]
  · simp [deviceKeyStorageGet, deviceKeyStorageSet, backendSet]
  · simp [deviceKeyStorageGet, deviceKeyStorageSet, deviceKeyStorageDelete,
      backendSet, backendDelete]
  · intro h
    exact hdel b cliService key h

/-- Witness for C8: the laws at a concrete backend and key, including the
delete-absent no-op with its hypothesis discharged on the empty backend. -/
theorem secretStorage_kv_laws_witness :
    deviceKeyStorageGet (deviceKeyStorageSet emptyBackend "k1" "v1") "k1" = some "v1"
    ∧ deviceKeyStorageDelete emptyBackend "k1" "ident-agency-cli" "k1"
        = emptyBackend "ident-agency-cli" "k1" :=
  ⟨(secretStorage_kv_laws emptyBackend "svc" "k1" "v1").2.2.2.1,
   (secretStorage_kv_laws emptyBackend "svc" "k1" "v1").2.2.2.2.2 (by decide)
     "ident-agency-cli" "k1"⟩

/-- C1 counterexample: with the single entry `device-key-X ↦ ""`, the first
lookup for identifier `"X"` hits (the key is present in the store), yet the
auth.js provider throws the not-found error: the source tests JS truthiness
and the empty string is falsy.  This refutes "it succeeds whenever either
lookup hits" and "it throws iff both lookups miss" as literally stated. -/
theorem authDeviceKeyProvider_hit_but_throws :
    (storeOnly "device-key-X" "" cliService ("device-key-" ++ "X")).isSome = true
    ∧ authDeviceKeyProvider (storeOnly "device-key-X" "") "X"
        = Except.error "Device key not found for: X" :=
  ⟨by decide, by decide⟩

/-- C1 (amended): the auth.js device key provider first reads
`'device-key-' + keyIdOrDeviceId`; it succeeds with that value's base64
decoding when the value is truthy (present and non-empty).  Otherwise, when
the identifier starts with `'device:'` (and splitting on `':'` yields at
least two parts, which the source re-checks), the lookup is re-attempted
under `'device-key-' + parts[1]`; the provider succeeds exactly when the
final lookup result is truthy and otherwise throws the error naming the
requested identifier.  The spec's concrete example — key material stored
only under `device-key-ABCDEF1234567890`, resolved for keyId
`device:ABCDEF1234567890:1700000000000` — succeeds via the fallback. -/
theorem authDeviceKeyProvider_spec :
    ∀ (secrets : SecretBackend) (keyIdOrDeviceId : String),
      (jsTruthy (secrets cliService ("device-key-" ++ keyIdOrDeviceId)) = true →
        authDeviceKeyProvider secrets keyIdOrDeviceId
          = Except.ok (base64decode
              ((secrets cliService ("device-key-" ++ keyIdOrDeviceId)).getD "")))
      ∧ (jsTruthy (secrets cliService ("device-key-" ++ keyIdOrDeviceId)) = false →
          startsWithLit "device:" keyIdOrDeviceId = true →
          2 ≤ (jsSplit ':' keyIdOrDeviceId).length →
          authLookup secrets keyIdOrDeviceId
            = secrets cliService
                ("device-key-" ++ (jsSplit ':' keyIdOrDeviceId).getD 1 ""))
      ∧ (authDeviceKeyProvider secrets keyIdOrDeviceId
            = Except.error ("Device key not found for: " ++ keyIdOrDeviceId)
          ↔ jsTruthy (authLookup secrets keyIdOrDeviceId) = false)
      ∧ (jsTruthy (authLookup secrets keyIdOrDeviceId) = true →
          authDeviceKeyProvider secrets keyIdOrDeviceId
            = Except.ok (base64decode ((authLookup secrets keyIdOrDeviceId).getD "")))
      ∧ authDeviceKeyProvider (storeOnly "device-key-ABCDEF1234567890" "QUJDREVGR0g=")
          "device:ABCDEF1234567890:1700000000000"
          = Except.ok [65, 66, 67, 68, 69, 70, 71, 72] := by
  intro secrets keyIdOrDeviceId
  refine ⟨?_, ?_, ?_, ?_, by decide⟩
  · intro h
    simp [authDeviceKeyProvider, authLookup, h]
  · intro h1 h2 h3
    simp [authLookup, h1, h2, h3]
  · constructor
    · intro h
      by_cases ht : jsTruthy (authLookup secrets keyIdOrDeviceId) = true
      · simp [authDeviceKeyProvider, ht] at h
      · simpa using ht
    · intro h
      simp [authDeviceKeyProvider, h]
  · intro h
    simp [authDeviceKeyProvider, h]

/-- Witness for C1's amended theorem: a truthy first lookup succeeds. -/
theorem authDeviceKeyProvider_spec_witness :
    authDeviceKeyProvider (storeOnly "device-key-D" "QQ==") "D"
      = Except.ok (base64decode
          ((storeOnly "device-key-D" "QQ==" cliService ("device-key-" ++ "D")).getD "")) :=
  (authDeviceKeyProvider_spec (storeOnly "device-key-D" "QQ==") "D").1 (by decide)

/-- C9 counterexample: with the single entry `device-key-D ↦ ""`, the single
lookup of the keys.js provider for identifier `"D"` hits, yet the provider
throws: the source tests JS truthiness and the empty string is falsy, so
"throws iff that single lookup misses" is false as literally stated. -/
theorem keysDeviceKeyProvider_hit_but_throws :
    (storeOnly "device-key-D" "" cliService ("device-key-" ++ "D")).isSome = true
    ∧ keysDeviceKeyProvider (storeOnly "device-key-D" "") "D"
        = Except.error "Device key not found for device ID: D" :=
  ⟨by decide, by decide⟩

/-- C9 (amended): the keys.js device key provider performs exactly one
lookup, under `'device-key-' + deviceId`: it throws the error naming the
identifier exactly when that lookup yields no truthy (non-empty) value, and
otherwise returns the base64-decoded bytes.  It has no legacy fallback, so
on the composite identifier `device:ABCDEF1234567890:1700000000000` with key
material stored only under `device-key-ABCDEF1234567890` it fails while the
auth.js provider succeeds: the two providers are not equivalent. -/
theorem keysDeviceKeyProvider_spec :
    ∀ (secrets : SecretBackend) (deviceId : String),
      (keysDeviceKeyProvider secrets deviceId
          = Except.error ("Device key not found for device ID: " ++ deviceId)
        ↔ jsTruthy (secrets cliService ("device-key-" ++ deviceId)) = false)
      ∧ (jsTruthy (secrets cliService ("device-key-" ++ deviceId)) = true →
          keysDeviceKeyProvider secrets deviceId
            = Except.ok (base64decode
                ((secrets cliService ("device-key-" ++ deviceId)).getD "")))
      ∧ keysDeviceKeyProvider (storeOnly "device-key-ABCDEF1234567890" "QUJDREVGR0g=")
          "device:ABCDEF1234567890:1700000000000"
          = Except.error
              "Device key not found for device ID: device:ABCDEF1234567890:1700000000000"
      ∧ authDeviceKeyProvider (storeOnly "device-key-ABCDEF1234567890" "QUJDREVGR0g=")
          "device:ABCDEF1234567890:1700000000000"
          = Except.ok [65, 66, 67, 68, 69, 70, 71, 72] := by
  intro secrets deviceId
  refine ⟨?_, ?_, by decide, by decide⟩
  · constructor
    · intro h
      by_cases ht : jsTruthy (secrets cliService ("device-key-" ++ deviceId)) = true
      · simp [keysDeviceKeyProvider, ht] at h
      · simpa using ht
    · intro h
      simp [keysDeviceKeyProvider, h]
  · intro h
    simp [keysDeviceKeyProvider, h]

/-- Witness for C9's amended theorem: a truthy lookup succeeds. -/
theorem keysDeviceKeyProvider_spec_witness :
    keysDeviceKeyProvider (storeOnly "device-key-E" "QQ==") "E"
      = Except.ok (base64decode
          ((storeOnly "device-key-E" "QQ==" cliService ("device-key-" ++ "E")).getD "")) :=
  (keysDeviceKeyProvider_spec (storeOnly "device-key-E" "QQ==") "E").2.1 (by decide)

/-- Truthiness of an optional JS boolean (`if (!response.replace)`):
`undefined` and `false` are falsy. -/
def jsTruthyBool : Option Bool → Bool
  | some true => true
  | _ => false

/-- Outcome of the device-key slice of `deviceCommand`. -/
inductive DeviceCmdOutcome where
  | stored
  | cancelled
deriving DecidableEq

/-- Embeds the device-key check/confirm/store slice of `deviceCommand`
(src/src/actions/keys.js, lines 1062–1098): read the existing entry under
`'device-key-' + deviceId`; when it is truthy, proceed only with the
`--yes` flag or a confirmed replacement prompt, else exit without storing;
on proceeding, store the freshly generated base64 key (modelled by the
oracle argument `newKeyB64`). -/
def deviceCommandKeyStep (secrets : SecretBackend) (yes : Bool)
    (replaceResp : Option Bool) (deviceId newKeyB64 : String) :
    DeviceCmdOutcome × SecretBackend :=
  let key := "device-key-" ++ deviceId
  let existingKey := secrets cliService key
  if jsTruthy existingKey then
    if yes then
      (DeviceCmdOutcome.stored, backendSet secrets cliService key newKeyB64)
    else if jsTruthyBool replaceResp then
      (DeviceCmdOutcome.stored, backendSet secrets cliService key newKeyB64)
    else
      (DeviceCmdOutcome.cancelled, secrets)
  else
    (DeviceCmdOutcome.stored, backendSet secrets cliService key newKeyB64)

/-- C7 counterexample: with the existing entry `device-key-dev ↦ ""`, no
`--yes` flag and a declining confirmation response, the command still stores
the new key and replaces the entry: the source guards the warning/confirm
block by JS truthiness of the existing value, and the empty string is falsy.
This refutes "if a secret entry already exists ... the user must confirm
before the entry is overwritten" as literally stated. -/
theorem deviceCommand_overwrites_without_confirm :
    (storeOnly "device-key-dev" "" cliService ("device-key-" ++ "dev")).isSome = true
    ∧ (deviceCommandKeyStep (storeOnly "device-key-dev" "") false (some false)
        "dev" "TkVX").1 = DeviceCmdOutcome.stored
    ∧ (deviceCommandKeyStep (storeOnly "device-key-dev" "") false (some false)
        "dev" "TkVX").2 cliService "device-key-dev" = some "TkVX" :=
  ⟨by decide, by decide, by decide⟩

/-- C7 (amended): when an entry with a non-empty value already exists under
`'device-key-' + deviceId`, the replacement is guarded: without `--yes` and
without a confirming response the command cancels, leaves the store
untouched, and the previously stored value is unchanged; with `--yes` or a
confirming response it stores the new key. -/
theorem deviceCommand_confirm_guard :
    ∀ (secrets : SecretBackend) (yes : Bool) (replaceResp : Option Bool)
      (deviceId newKeyB64 v : String),
      (secrets cliService ("device-key-" ++ deviceId) = some v → v ≠ "" →
        yes = false → jsTruthyBool replaceResp = false →
          deviceCommandKeyStep secrets yes replaceResp deviceId newKeyB64
            = (DeviceCmdOutcome.cancelled, secrets))
      ∧ (secrets cliService ("device-key-" ++ deviceId) = some v → v ≠ "" →
          yes = false → jsTruthyBool replaceResp = false →
          (deviceCommandKeyStep secrets yes replaceResp deviceId newKeyB64).2
              cliService ("device-key-" ++ deviceId) = some v)
      ∧ (secrets cliService ("device-key-" ++ deviceId) = some v → v ≠ "" →
          (yes = true ∨ jsTruthyBool replaceResp = true) →
          deviceCommandKeyStep secrets yes replaceResp deviceId newKeyB64
            = (DeviceCmdOutcome.stored,
                backendSet secrets cliService ("device-key-" ++ deviceId) newKeyB64)) := by
  intro secrets yes replaceResp deviceId newKeyB64 v
  have htr : secrets cliService ("device-key-" ++ deviceId) = some v → v ≠ "" →
      jsTruthy (secrets cliService ("device-key-" ++ deviceId)) = true := by
    intro he hv
    rw [he]
    exact (jsTruthy_some_iff v).mpr hv
  refine ⟨?_, ?_, ?_⟩
  · intro he hv hy hr
    simp [deviceCommandKeyStep, htr he hv, hy, hr]
  · intro he hv hy hr
    have hjv : jsTruthy (some v) = true := (jsTruthy_some_iff v).mpr hv
    simp [deviceCommandKeyStep, hy, hr, he, hjv]
  · intro he hv hor
    rcases hor with hy | hr
    · simp [deviceCommandKeyStep, htr he hv, hy]
    · simp [deviceCommandKeyStep, htr he hv, hr]

/-- Witness for C7's amended theorem: an existing non-empty entry, no
`--yes`, a declining response: the command cancels and the store keeps the
old value. -/
theorem deviceCommand_confirm_guard_witness :
    deviceCommandKeyStep (storeOnly "device-key-dev" "OLD") false (some false) "dev" "TkVX"
      = (DeviceCmdOutcome.cancelled, storeOnly "device-key-dev" "OLD") :=
  (deviceCommand_confirm_guard (storeOnly "device-key-dev" "OLD") false (some false)
    "dev" "TkVX" "OLD").1 (by decide) (by decide) rfl (by decide)

/-- Substring membership on character lists (structural helper). -/
def listHasSub (needle : List Char) : List Char → Bool
  | [] => needle.isEmpty
  | c :: t => isPre needle (c :: t) || listHasSub needle t

/-- Embeds JS `hay.includes(needle)`. -/
def hasSubstring (needle hay : String) : Bool := listHasSub needle.data hay.data

/-- Embeds `s.replace(/^~/, os.homedir())`: a leading `~` becomes `home`. -/
def expandTilde (home : String) (s : String) : String :=
  match s.data with
  | '~' :: rest => String.mk (home.data ++ rest)
  | _ => s

/-- The default ed25519 path `~/.ssh/id_ed25519` for a given home dir. -/
def defaultKeyPath (home : String) : String := home ++ "/.ssh/id_ed25519"

/-- The fallback RSA path `~/.ssh/id_rsa` for a given home dir. -/
def rsaKeyPath (home : String) : String := home ++ "/.ssh/id_rsa"

/-- Result of the interactive path prompt (`prompts` text question):
`none` when the response is falsy (throwing "SSH key path is required"),
otherwise the tilde-expanded entered path. -/
def promptedPath (home : String) (promptPath : Option String) : Option String :=
  match promptPath with
  | none => none
  | some p => if p = "" then none else some (expandTilde home p)

/-- Selection of the candidate private-key path in `createSSHKeyProvider`
(src/src/actions/keys.js, lines 895–937): a truthy custom flag path
(tilde-expanded) when it exists, falling back to prompting when it does not;
otherwise the default ed25519 path when it exists, else the RSA path when it
exists, else prompting.  `none` models the "SSH key path is required"
throw on a falsy prompt response. -/
def selectSSHKeyPath (customKeyPath : Option String) (home : String)
    (fs : String → Bool) (promptPath : Option String) : Option String :=
  if jsTruthy customKeyPath then
    let keyPath := expandTilde home (customKeyPath.getD "")
    if fs keyPath then some keyPath
    else promptedPath home promptPath
  else
    if fs (defaultKeyPath home) then some (defaultKeyPath home)
    else if fs (rsaKeyPath home) then some (rsaKeyPath home)
    else promptedPath home promptPath

/-- Result of one invocation of the SSH key provider. -/
inductive SSHKeyResult where
  | ok (privateKey : String) (passphrase : Option String)
  | errPathRequired
  | errNotFound (path : String)
deriving DecidableEq

/-- Embeds one invocation of the provider built by `createSSHKeyProvider`
(src/src/actions/keys.js, lines 888–960): select the candidate path, throw
"SSH key not found at: path" when it does not exist, read the file, and
prompt for a passphrase exactly when the content contains `'ENCRYPTED'`
(the prompt's answer is the oracle `promptPass`; otherwise the passphrase
stays `undefined`). -/
def createSSHKeyProviderRun (customKeyPath : Option String) (home : String)
    (fs : String → Bool) (readFile : String → String)
    (promptPath promptPass : Option String) : SSHKeyResult :=
  match selectSSHKeyPath customKeyPath home fs promptPath with
  | none => SSHKeyResult.errPathRequired
  | some keyPath =>
    if fs keyPath then
      let privateKey := readFile keyPath
      if hasSubstring "ENCRYPTED" privateKey then
        SSHKeyResult.ok privateKey promptPass
      else
        SSHKeyResult.ok privateKey none
    else
      SSHKeyResult.errNotFound keyPath

/-- C5: the SSH key provider selects its candidate path in strict priority:
tilde-expanded explicit flag path, else `~/.ssh/id_ed25519`, else
`~/.ssh/id_rsa`, else the interactively prompted path; a nonexistent
explicit path or nonexistent defaults fall back to prompting; and the run
fails with the "key not found at path" error exactly when a finally chosen
candidate path does not exist on disk (a falsy prompt response instead
raises the distinct "path is required" error). -/
theorem createSSHKeyProvider_path_selection :
    ∀ (customKeyPath : Option String) (home : String) (fs : String → Bool)
      (readFile : String → String) (promptPath promptPass : Option String),
      (jsTruthy customKeyPath = true →
        fs (expandTilde home (customKeyPath.getD "")) = true →
        selectSSHKeyPath customKeyPath home fs promptPath
          = some (expandTilde home (customKeyPath.getD "")))
      ∧ (jsTruthy customKeyPath = false → fs (defaultKeyPath home) = true →
          selectSSHKeyPath customKeyPath home fs promptPath = some (defaultKeyPath home))
      ∧ (jsTruthy customKeyPath = false → fs (defaultKeyPath home) = false →
          fs (rsaKeyPath home) = true →
          selectSSHKeyPath customKeyPath home fs promptPath = some (rsaKeyPath home))
      ∧ (jsTruthy customKeyPath = true →
          fs (expandTilde home (customKeyPath.getD "")) = false →
          selectSSHKeyPath customKeyPath home fs promptPath = promptedPath home promptPath)
      ∧ (jsTruthy customKeyPath = false → fs (defaultKeyPath home) = false →
          fs (rsaKeyPath home) = false →
          selectSSHKeyPath customKeyPath home fs promptPath = promptedPath home promptPath)
      ∧ (∀ p : String,
          createSSHKeyProviderRun customKeyPath home fs readFile promptPath promptPass
              = SSHKeyResult.errNotFound p
            ↔ selectSSHKeyPath customKeyPath home fs promptPath = some p ∧ fs p = false)
      ∧ (selectSSHKeyPath customKeyPath home fs promptPath = none →
          createSSHKeyProviderRun customKeyPath home fs readFile promptPath promptPass
            = SSHKeyResult.errPathRequired) := by
  intro customKeyPath home fs readFile promptPath promptPass
  refine ⟨?_, ?_, ?_, ?_, ?_, ?_, ?_⟩
  · intro h1 h2
    simp [selectSSHKeyPath, h1, h2]
  · intro h1 h2
    simp [selectSSHKeyPath, h1, h2]
  · intro h1 h2 h3
    simp [selectSSHKeyPath, h1, h2, h3]
  · intro h1 h2
    simp [selectSSHKeyPath, h1, h2]
  · intro h1 h2 h3
    simp [selectSSHKeyPath, h1, h2, h3]
  · intro p
    cases hsel : selectSSHKeyPath customKeyPath home fs promptPath with
    | none =>
      simp [createSSHKeyProviderRun, hsel]
    | some q =>
      cases hq : fs q with
      | true =>
        constructor
        · intro h
          rw [createSSHKeyProviderRun, hsel] at h
          simp only [hq, if_true] at h
          rcases henc : hasSubstring "ENCRYPTED" (readFile q) with _ | _ <;>
            simp [henc] at h
        · rintro ⟨hqp, hfp⟩
          injection hqp with hqp
          subst hqp
          simp [hq] at hfp
      | false =>
        rw [createSSHKeyProviderRun, hsel]
        simp only [hq, Bool.false_eq_true, if_false]
        constructor
        · intro h
          injection h with h
          subst h
          exact ⟨rfl, hq⟩
        · rintro ⟨hqp, _⟩
          injection hqp with hqp
          rw [hqp]
  · intro hsel
    simp [createSSHKeyProviderRun, hsel]

/-- Witness for C5: with no flag, no key at either default location and a
prompted path, the selection falls back to the prompted path; and the run
then fails with the not-found error at that path. -/
theorem createSSHKeyProvider_path_selection_witness :
    selectSSHKeyPath none "/h" (fun _ => false) (some "/nope")
      = promptedPath "/h" (some "/nope")
    ∧ createSSHKeyProviderRun none "/h" (fun _ => false) (fun _ => "") (some "/nope") none
        = SSHKeyResult.errNotFound "/nope" :=
  ⟨(createSSHKeyProvider_path_selection none "/h" (fun _ => false) (fun _ => "")
      (some "/nope") none).2.2.2.2.1 (by decide) (by decide) (by decide),
   ((createSSHKeyProvider_path_selection none "/h" (fun _ => false) (fun _ => "")
      (some "/nope") none).2.2.2.2.2.1 "/nope").mpr ⟨by decide, by decide⟩⟩

/-- C6: the provider consults the passphrase prompt exactly when the key
file content contains the `'ENCRYPTED'` marker: for a non-encrypted key the
result is `ok` with the file text and an `undefined` passphrase,
independently of the passphrase oracle (so two successive calls on the same
unchanged key return identical private key material with no passphrase);
for an encrypted key the returned passphrase is exactly the prompt's
answer. -/
theorem createSSHKeyProvider_passphrase :
    ∀ (customKeyPath : Option String) (home : String) (fs : String → Bool)
      (readFile : String → String) (promptPath : Option String) (p : String),
      selectSSHKeyPath customKeyPath home fs promptPath = some p →
      fs p = true →
      ((hasSubstring "ENCRYPTED" (readFile p) = false →
          ∀ promptPass promptPass' : Option String,
            createSSHKeyProviderRun customKeyPath home fs readFile promptPath promptPass
              = SSHKeyResult.ok (readFile p) none
            ∧ createSSHKeyProviderRun customKeyPath home fs readFile promptPath promptPass
              = createSSHKeyProviderRun customKeyPath home fs readFile promptPath promptPass')
        ∧ (hasSubstring "ENCRYPTED" (readFile p) = true →
            ∀ promptPass : Option String,
              createSSHKeyProviderRun customKeyPath home fs readFile promptPath promptPass
                = SSHKeyResult.ok (readFile p) promptPass)) := by
  intro customKeyPath home fs readFile promptPath p hsel hfs
  constructor
  · intro henc promptPass promptPass'
    constructor
    · rw [createSSHKeyProviderRun, hsel]
      simp [hfs, henc]
    · rw [createSSHKeyProviderRun, hsel, createSSHKeyProviderRun, hsel]
      simp [hfs, henc]
  · intro henc promptPass
    rw [createSSHKeyProviderRun, hsel]
    simp [hfs, henc]

/-- Witness for C6: the default key exists, its content has no `ENCRYPTED`
marker, and the run returns the file text with an `undefined` passphrase. -/
theorem createSSHKeyProvider_passphrase_witness :
    createSSHKeyProviderRun none "/h" (fun pth => pth == "/h/.ssh/id_ed25519")
      (fun _ => "KEYDATA") none (some "pw")
      = SSHKeyResult.ok "KEYDATA" none :=
  ((createSSHKeyProvider_passphrase none "/h" (fun pth => pth == "/h/.ssh/id_ed25519")
      (fun _ => "KEYDATA") none "/h/.ssh/id_ed25519" (by decide) (by decide)).1
    (by decide) (some "pw") none).1

/-! SHA-256 over byte lists (bytes are `Nat`s below 256, words are `Nat`s
below 2^32 with explicit reduction mod 2^32), embedding Node's
`createHash('sha256')`. -/

/-- Reduce to a 32-bit word. -/
def w32 (n : Nat) : Nat := n % 2 ^ 32

/-- Right rotation of a 32-bit word. -/
def rotr32 (n x : Nat) : Nat := w32 ((x >>> n) ||| (x <<< (32 - n)))

/-- SHA-256 Σ₀. -/
def bsig0 (x : Nat) : Nat := rotr32 2 x ^^^ rotr32 13 x ^^^ rotr32 22 x

/-- SHA-256 Σ₁. -/
def bsig1 (x : Nat) : Nat := rotr32 6 x ^^^ rotr32 11 x ^^^ rotr32 25 x

/-- SHA-256 σ₀. -/
def ssig0 (x : Nat) : Nat := rotr32 7 x ^^^ rotr32 18 x ^^^ (x >>> 3)

/-- SHA-256 σ₁. -/
def ssig1 (x : Nat) : Nat := rotr32 17 x ^^^ rotr32 19 x ^^^ (x >>> 10)

/-- SHA-256 Ch (complement as xor with the all-ones 32-bit word). -/
def chf (x y z : Nat) : Nat := (x &&& y) ^^^ ((4294967295 ^^^ x) &&& z)

/-- SHA-256 Maj. -/
def majf (x y z : Nat) : Nat := (x &&& y) ^^^ (x &&& z) ^^^ (y &&& z)

/-- The 64 SHA-256 round constants. -/
def sha256K : List Nat :=
  [1116352408, 1899447441, 3049323471, 3921009573, 961987163, 1508970993,
   2453635748, 2870763221, 3624381080, 310598401, 607225278, 1426881987,
   1925078388, 2162078206, 2614888103, 3248222580, 3835390401, 4022224774,
   264347078, 604807628, 770255983, 1249150122, 1555081692, 1996064986,
   2554220882, 2821834349, 2952996808, 3210313671, 3336571891, 3584528711,
   113926993, 338241895, 666307205, 773529912, 1294757372, 1396182291,
   1695183700, 1986661051, 2177026350, 2456956037, 2730485921, 2820302411,
   3259730800, 3345764771, 3516065817, 3600352804, 4094571909, 275423344,
   430227734, 506948616, 659060556, 883997877, 958139571, 1322822218,
   1537002063, 1747873779, 1955562222, 2024104815, 2227730452, 2361852424,
   2428436474, 2756734187, 3204031479, 3329325298]

/-- The eight 32-bit words of the SHA-256 internal state. -/
structure Hash8 where
  a : Nat
  b : Nat
  c : Nat
  d : Nat
  e : Nat
  f : Nat
  g : Nat
  h : Nat

/-- The SHA-256 initial hash value. -/
def sha256InitHash : Hash8 :=
  ⟨1779033703, 3144134277, 1013904242, 2773480762,
   1359893119, 2600822924, 528734635, 1541459225⟩

/-- The eight bytes of a 64-bit big-endian length field. -/
def bytesBE8 (n : Nat) : List Nat :=
  [(n >>> 56) % 256, (n >>> 48) % 256, (n >>> 40) % 256, (n >>> 32) % 256,
   (n >>> 24) % 256, (n >>> 16) % 256, (n >>> 8) % 256, n % 256]

/-- SHA-256 padding: `0x80`, zeros to 56 mod 64, then the bit length. -/
def sha256Pad (msg : List Nat) : List Nat :=
  let len := msg.length
  let zeros := (64 - (len + 9) % 64) % 64
  msg ++ [0x80] ++ List.replicate zeros 0 ++ bytesBE8 (len * 8)

/-- Big-endian 32-bit words of a byte list. -/
def wordsOfBytes : List Nat → List Nat
  | b0 :: b1 :: b2 :: b3 :: rest =>
      (b0 * 16777216 + b1 * 65536 + b2 * 256 + b3) :: wordsOfBytes rest
  | _ => []

/-- Extend the 16-word message schedule by `k` further words. -/
def extendSchedule : Nat → List Nat → List Nat
  | 0, ws => ws
  | k + 1, ws =>
    let n := ws.length
    let w := w32 (ssig1 (ws.getD (n - 2) 0) + ws.getD (n - 7) 0
      + ssig0 (ws.getD (n - 15) 0) + ws.getD (n - 16) 0)
    extendSchedule k (ws ++ [w])

/-- One SHA-256 compression round for a `(k, w)` pair. -/
def sha256Round (st : Hash8) (kw : Nat × Nat) : Hash8 :=
  let t1 := w32 (st.h + bsig1 st.e + chf st.e st.f st.g + kw.1 + kw.2)
  let t2 := w32 (bsig0 st.a + majf st.a st.b st.c)
  ⟨w32 (t1 + t2), st.a, st.b, st.c, w32 (st.d + t1), st.e, st.f, st.g⟩

/-- Process one 64-byte block: run the 64 rounds and add the result to the
incoming state, word-wise mod 2^32. -/
def sha256Block (st : Hash8) (block : List Nat) : Hash8 :=
  let ws := extendSchedule 48 (wordsOfBytes block)
  let st2 := (sha256K.zip ws).foldl sha256Round st
  ⟨w32 (st.a + st2.a), w32 (st.b + st2.b), w32 (st.c + st2.c), w32 (st.d + st2.d),
   w32 (st.e + st2.e), w32 (st.f + st2.f), w32 (st.g + st2.g), w32 (st.h + st2.h)⟩

/-- Split a byte list into 64-byte blocks. -/
def toBlocks (l : List Nat) : List (List Nat) :=
  if h : l = [] then []
  else l.take 64 :: toBlocks (l.drop 64)
termination_by l.length
decreasing_by
  simp [List.length_drop]
  have hpos : 0 < l.length := List.length_pos.mpr h
  omega

/-- Big-endian bytes of one 32-bit word. -/
def wordBytes (w : Nat) : List Nat :=
  [(w >>> 24) % 256, (w >>> 16) % 256, (w >>> 8) % 256, w % 256]

/-- The 32 digest bytes of a final state. -/
def digestBytes (st : Hash8) : List Nat :=
  wordBytes st.a ++ wordBytes st.b ++ wordBytes st.c ++ wordBytes st.d ++
  wordBytes st.e ++ wordBytes st.f ++ wordBytes st.g ++ wordBytes st.h

/-- SHA-256 of a byte list. -/
def sha256Bytes (msg : List Nat) : List Nat :=
  digestBytes ((toBlocks (sha256Pad msg)).foldl sha256Block sha256InitHash)

/-- Lowercase hex digit of a value below 16. -/
def hexDigit (n : Nat) : Char :=
  if n < 10 then Char.ofNat (48 + n) else Char.ofNat (87 + n)

/-- Lowercase hex encoding of a byte list (two digits per byte), as in
Node's `digest('hex')`. -/
def hexOfBytes : List Nat → List Char
  | [] => []
  | b :: bs => hexDigit (b / 16 % 16) :: hexDigit (b % 16) :: hexOfBytes bs

/-- UTF-8 bytes of one character. -/
def utf8EncodeCharNat (c : Char) : List Nat :=
  let n := c.toNat
  if n < 128 then [n]
  else if n < 2048 then [192 + n / 64, 128 + n % 64]
  else if n < 65536 then [224 + n / 4096, 128 + n / 64 % 64, 128 + n % 64]
  else [240 + n / 262144, 128 + n / 4096 % 64, 128 + n / 64 % 64, 128 + n % 64]

/-- UTF-8 bytes of a string (what `createHash(...).update(string)` hashes). -/
def utf8Bytes (s : String) : List Nat := (s.data.map utf8EncodeCharNat).flatten

/-- Embeds `generateDeviceId` (src/src/actions/keys.js, lines 839–843) with
the three OS facts (`os.platform()`, `os.hostname()`,
`os.userInfo().username`) as explicit inputs: hex SHA-256 of
`platform-hostname-username`, truncated to its first 16 characters. -/
def generateDeviceId (platform hostname username : String) : String :=
  let platformInfo := platform ++ "-" ++ hostname ++ "-" ++ username
  let hash := String.mk (hexOfBytes (sha256Bytes (utf8Bytes platformInfo)))
  String.mk (hash.data.take 16)

theorem hexDigit_mem : ∀ n : Nat, n < 16 →
    ("0123456789abcdef".data.contains (hexDigit n)) = true := by decide

theorem hexOfBytes_length (bs : List Nat) :
    (hexOfBytes bs).length = 2 * bs.length := by
  induction bs with
  | nil => rfl
  | cons b bs ih =>
    simp [hexOfBytes, ih]
    omega

theorem hexOfBytes_all_hex (bs : List Nat) :
    ((hexOfBytes bs).all fun c => "0123456789abcdef".data.contains c) = true := by
  induction bs with
  | nil => rfl
  | cons b bs ih =>
    have h1 := hexDigit_mem (b / 16 % 16) (Nat.mod_lt _ (by omega))
    have h2 := hexDigit_mem (b % 16) (Nat.mod_lt _ (by omega))
    simp only [hexOfBytes, List.all_cons, h1, h2, ih, Bool.and_self]

theorem sha256Bytes_length (msg : List Nat) : (sha256Bytes msg).length = 32 := by
  simp [sha256Bytes, digestBytes, wordBytes]

theorem all_of_take {α : Type _} (p : α → Bool) (n : Nat) (l : List α)
    (h : l.all p = true) : (l.take n).all p = true := by
  rw [List.all_eq_true] at h ⊢
  intro x hx
  exact h x (List.mem_of_mem_take hx)

/-- C4: for every fixed `(platform, hostname, username)` triple the device
identity deriver is deterministic (a pure function of its inputs), its value
is the first 16 hex characters of the hex-encoded SHA-256 hash of the UTF-8
bytes of `platform + "-" + hostname + "-" + username`, and the result is
always a 16-character string of lowercase hex digits. -/
theorem generateDeviceId_spec :
    ∀ platform hostname username : String,
      generateDeviceId platform hostname username
        = String.mk ((hexOfBytes (sha256Bytes (utf8Bytes
            (platform ++ "-" ++ hostname ++ "-" ++ username)))).take 16)
      ∧ generateDeviceId platform hostname username
        = generateDeviceId platform hostname username
      ∧ (generateDeviceId platform hostname username).length = 16
      ∧ ((generateDeviceId platform hostname username).data.all
          fun c => "0123456789abcdef".data.contains c) = true := by
  intro platform hostname username
  refine ⟨rfl, rfl, ?_, ?_⟩
  · show (String.mk ((hexOfBytes (sha256Bytes (utf8Bytes
        (platform ++ "-" ++ hostname ++ "-" ++ username)))).take 16)).length = 16
    have hlen : (String.mk ((hexOfBytes (sha256Bytes (utf8Bytes
        (platform ++ "-" ++ hostname ++ "-" ++ username)))).take 16)).length
        = ((hexOfBytes (sha256Bytes (utf8Bytes
            (platform ++ "-" ++ hostname ++ "-" ++ username)))).take 16).length := rfl
    rw [hlen, List.length_take, hexOfBytes_length, sha256Bytes_length]
    decide
  · exact all_of_take _ 16 _ (hexOfBytes_all_hex _)

end IdentaCli
